import Mathlib

/-!
Verification development for the wikidata-mcp-mirror repository.

The Python sources are shallowly embedded: pure request/response helpers
from wikidata_api.py become Lean functions over explicit backend-response
values; the SSE session machinery from render_server.py and server_sse.py
becomes explicit state passing and a small labelled step relation.
Network effects are modelled by passing the remote endpoint as a function
argument and by recording the list of queries actually sent to it.
-/

/- ===== Generic string helpers (Python substring and count semantics) ===== -/

/-- Boolean test that the first char list is an initial segment of the second. -/
def listIsPre : List Char → List Char → Bool
  | [], _ => true
  | _ :: _, [] => false
  | a :: as, b :: bs => a == b && listIsPre as bs

/-- Boolean substring test on char lists, mirroring the Python in operator. -/
def listHasInfix (pat : List Char) : List Char → Bool
  | [] => pat.isEmpty
  | b :: bs => listIsPre pat (b :: bs) || listHasInfix pat bs

/-- Python s.startswith(pat), on Lean strings via their char data. -/
def strStarts (s pat : String) : Bool := listIsPre pat.data s.data

/-- Python pat in s, on Lean strings via their char data. -/
def strContains (s pat : String) : Bool := listHasInfix pat.data s.data

/-- Python s.count(c) for a single character. -/
def countChar (s : String) (c : Char) : Nat := s.data.count c

/-- The double-quote character, written via its code point. -/
def dquote : Char := Char.ofNat 34

/-- The single-quote character, written via its code point. -/
def squote : Char := Char.ofNat 39

theorem listIsPre_self_append (p r : List Char) : listIsPre p (p ++ r) = true := by
  induction p with
  | nil => rfl
  | cons a as ih => simp [listIsPre, ih]

theorem listHasInfix_of_isPre (pat l : List Char) (h : listIsPre pat l = true) :
    listHasInfix pat l = true := by
  cases l with
  | nil =>
    cases pat with
    | nil => rfl
    | cons a as => simp [listIsPre] at h
  | cons b bs => simp [listHasInfix, h]

theorem listHasInfix_nil_pat (l : List Char) : listHasInfix [] l = true := by
  cases l with
  | nil => rfl
  | cons x xs => simp [listHasInfix, listIsPre]

theorem listIsPre_append_right (pat l r : List Char) (h : listIsPre pat l = true) :
    listIsPre pat (l ++ r) = true := by
  induction pat generalizing l with
  | nil => rfl
  | cons p ps ihp =>
    cases l with
    | nil => simp [listIsPre] at h
    | cons x xs =>
      simp only [listIsPre, Bool.and_eq_true, List.cons_append] at h ⊢
      exact ⟨h.1, ihp xs h.2⟩

theorem listHasInfix_append_left (pat a b : List Char) (h : listHasInfix pat a = true) :
    listHasInfix pat (a ++ b) = true := by
  induction a with
  | nil =>
    cases pat with
    | nil => exact listHasInfix_nil_pat b
    | cons p ps => simp [listHasInfix, List.isEmpty] at h
  | cons x xs ih =>
    simp only [listHasInfix, Bool.or_eq_true] at h ⊢
    rcases h with h | h
    · exact Or.inl (listIsPre_append_right _ _ _ h)
    · exact Or.inr (ih h)

/- ===== Embedding of src/wikidata_api.py ===== -/

namespace WikidataAPI

/-- One hit of the wbsearchentities API: only the id field is consumed by the code. -/
structure SearchHit where
  id : String
deriving DecidableEq, Repr

/-- Outcome of the requests.get call made by search_entity in wikidata_api.py:
either the parsed JSON body (whose search key may be absent), or a
requests.exceptions.RequestException caught by the handler (raise_for_status
failures are RequestExceptions as well). -/
inductive SearchResponse where
  | success (search : Option (List SearchHit))
  | requestException (msg : String)
deriving DecidableEq, Repr

/-- wikidata_api.search_entity, lines 64-96: returns the first hit id when the
search key is present and nonempty, the string No entity found otherwise, and
an error string (rather than raising) on a request exception. -/
def search_entity : SearchResponse → String
  | .success (some (h :: _)) => h.id
  | .success (some []) => "No entity found"
  | .success none => "No entity found"
  | .requestException m => "Error searching for entity: " ++ m

/-- The en-language pieces of one entity in a wbgetentities reply:
labels.en.value and descriptions.en.value, each possibly absent
(the code reads them with chained dict .get calls). -/
structure EntityRec where
  labelEn : Option String
  descriptionEn : Option String
deriving DecidableEq, Repr

/-- Outcome of the requests.get call made by get_entity_metadata:
the parsed entities object (an association list keyed by entity id),
or a caught RequestException. -/
inductive MetaResponse where
  | success (entities : List (String × EntityRec))
  | requestException (msg : String)
deriving DecidableEq, Repr

/-- Result dictionary of get_entity_metadata: either the id/label/description
record or a dict with a single error key. -/
inductive MetadataDict where
  | record (id label description : String)
  | err (msg : String)
deriving DecidableEq, Repr

/-- First-match association lookup, mirroring Python dict indexing
(dict keys are unique, so first match is the match). -/
def assocLookup {α : Type} (l : List (String × α)) (k : String) : Option α :=
  (l.find? (fun e => e.1 == k)).map (fun e => e.2)

/-- wikidata_api.get_entity_metadata, lines 132-172: looks the entity up in the
entities object, defaulting the missing label/description, and turns both
lookup failure and request exceptions into error dictionaries. -/
def get_entity_metadata (resp : MetaResponse) (entity_id : String) : MetadataDict :=
  match resp with
  | .success entities =>
    match assocLookup entities entity_id with
    | some e =>
        .record entity_id (e.labelEn.getD "No label found")
          (e.descriptionEn.getD "No description found")
    | none => .err ("Entity " ++ entity_id ++ " not found")
  | .requestException m => .err ("Error retrieving entity metadata: " ++ m)

/-- Escape of one character as json.dumps does for the characters these
payloads contain (backslash, double quote, newline, carriage return, tab). -/
def jsonEscapeChar (c : Char) : List Char :=
  if c = Char.ofNat 92 then [Char.ofNat 92, Char.ofNat 92]
  else if c = Char.ofNat 34 then [Char.ofNat 92, Char.ofNat 34]
  else if c = Char.ofNat 10 then [Char.ofNat 92, Char.ofNat 110]
  else if c = Char.ofNat 13 then [Char.ofNat 92, Char.ofNat 114]
  else if c = Char.ofNat 9 then [Char.ofNat 92, Char.ofNat 116]
  else [c]

/-- JSON string literal as json.dumps renders it. -/
def jsonStr (s : String) : String :=
  String.mk (Char.ofNat 34 :: (s.data.flatMap jsonEscapeChar) ++ [Char.ofNat 34])

/-- json.dumps of a get_entity_metadata result with the default separators
(comma-space and colon-space), exactly as server_sse.get_wikidata_metadata
serializes it. -/
def json_dumps_metadata : MetadataDict → String
  | .record i l d =>
      "\x7b\"id\": " ++ jsonStr i ++ ", \"label\": " ++ jsonStr l ++
        ", \"description\": " ++ jsonStr d ++ "\x7d"
  | .err m => "\x7b\"error\": " ++ jsonStr m ++ "\x7d"

/-- The triple-quoted block of default namespace declarations that
execute_sparql and execute_sparql_with_requests prepend, byte for byte
(leading newline, eight-space indentation, trailing indent). -/
def default_prefixes : String :=
  "\n        PREFIX wd: <http://www.wikidata.org/entity/>\n        PREFIX wdt: <http://www.wikidata.org/prop/direct/>\n        PREFIX p: <http://www.wikidata.org/prop/>\n        PREFIX ps: <http://www.wikidata.org/prop/statement/>\n        PREFIX wikibase: <http://wikiba.se/ontology#>\n        PREFIX bd: <http://www.bigdata.com/rdf#>\n        "

/-- The guard the code uses before prepending: any(p in query for p in
[PREFIX, prefix]) , a raw substring test in the two exact spellings. -/
def hasPrefixMarker (q : String) : Bool :=
  strContains q "PREFIX" || strContains q "prefix"

/-- The query text actually handed to the endpoint by execute_sparql and
execute_sparql_with_requests, lines 231-235 and 271-275. -/
def full_query (q : String) : String :=
  if hasPrefixMarker q then q else default_prefixes ++ q

/-- Reply of the SPARQL endpoint to one request, as the code observes it:
either the bindings (already serialized by json.dumps in the success branch)
or a raised exception with its message, type name and formatted traceback. -/
inductive SparqlReply where
  | ok (bindingsJson : String)
  | exn (msg etype tb : String)
deriving DecidableEq, Repr

/-- Value returned by execute_sparql / execute_sparql_with_requests, before
json.dumps: either the bindings list or the error-details dictionary built
in the except branch of execute_sparql_with_requests. -/
inductive SparqlResult where
  | bindings (raw : String)
  | errorDetails (error query error_type tb : String)
deriving DecidableEq, Repr

/-- wikidata_api.execute_sparql_with_requests, lines 250-312, at the value
level; the second component records the queries sent to the endpoint. -/
def execute_sparql_with_requests (net : String → SparqlReply) (q : String) :
    SparqlResult × List String :=
  match net (full_query q) with
  | .ok b => (.bindings b, [full_query q])
  | .exn m et tb =>
      (.errorDetails ("Error executing query with requests: " ++ m) q et tb,
        [full_query q])

/-- wikidata_api.execute_sparql, lines 200-248: the SPARQLWrapper path sends
the same prefixed query; on a wrapper exception it falls back to
execute_sparql_with_requests, which sends the query again. -/
def execute_sparql (net : String → SparqlReply) (q : String) :
    SparqlResult × List String :=
  match net (full_query q) with
  | .ok b => (.bindings b, [full_query q])
  | .exn _ _ _ =>
      let r := execute_sparql_with_requests net q
      (r.1, full_query q :: r.2)

end WikidataAPI

/- ===== Embedding of src/server_sse.py ===== -/

namespace ServerSSE

open WikidataAPI

/-- Dictionary returned by the execute_wikidata_sparql tool in server_sse.py:
a bare error dict, the enhanced error dict built from error details,
or the successfully parsed bindings. -/
inductive ToolResult where
  | errorMsg (m : String)
  | errorWithDetails (m details suggestion : String)
  | ok (raw : String)
deriving DecidableEq, Repr

/-- server_sse.execute_wikidata_sparql, lines 91-151: local validation of
quoting and of a CONTAINS pattern, then delegation to
wikidata_api.execute_sparql; json.loads of the dumps-ed result is the
identity at this value level. The second component is the list of queries
sent to the endpoint. -/
def execute_wikidata_sparql (net : String → SparqlReply) (sparql_query : String) :
    ToolResult × List String :=
  if sparql_query.data.contains dquote && !(countChar sparql_query dquote % 2 == 0) then
    (.errorMsg "Unbalanced double quotes in SPARQL query", [])
  else if sparql_query.data.contains squote && !(countChar sparql_query squote % 2 == 0) then
    (.errorMsg "Unbalanced single quotes in SPARQL query", [])
  else if strContains sparql_query "FILTER(" && strContains sparql_query "CONTAINS"
      && strContains sparql_query "CONTAINS(str(" && strContains sparql_query "\")" then
    (.errorMsg "Possible quote issue in CONTAINS. Use single quotes inside double quotes or escape properly.", [])
  else
    match execute_sparql net sparql_query with
    | (.bindings b, sent) => (.ok b, sent)
    | (.errorDetails e q et _, sent) =>
        (.errorWithDetails e ("Error Type: " ++ et ++ "\nQuery: " ++ q)
          "Try simplifying your query or check for syntax errors.", sent)

/-- server_sse.get_wikidata_metadata, lines 63-75, with the backend modelled
as a state-passing function so that two successive invocations are a real
sequential composition rather than a syntactic identity. -/
def get_wikidata_metadata_run {σ : Type} (backend : σ → MetaResponse × σ)
    (entity_id : String) (s : σ) : String × σ :=
  let r := backend s
  (json_dumps_metadata (get_entity_metadata r.1 entity_id), r.2)

/-- One value of the active_sessions dict in server_sse.py (lines 615-620 and
716-722): creation and last-activity timestamps are ISO-8601 strings whose
lexicographic order is their chronological order. -/
structure SessionInfo where
  client_host : String
  created_at : String
  last_activity : String
  message_count : Nat
  connection_count : Nat
deriving DecidableEq, Repr

/-- The active_sessions dict: an insertion-ordered association list with
unique keys, as a Python dict is. -/
abbrev Registry := List (String × SessionInfo)

/-- Python membership and indexing into active_sessions. -/
def lookupReg (reg : Registry) (sid : String) : Option SessionInfo :=
  (reg.find? (fun e => e.1 == sid)).map (fun e => e.2)

/-- The sort key of post_messages_no_slash line 704: last_activity (both
creation sites always set it, so the dict .get fallbacks never fire). -/
def sortKey (i : SessionInfo) : String := i.last_activity

/-- First entry of sorted(active_sessions.items(), key, reverse=True):
the earliest-inserted entry with the maximal key, since Python sorting is
stable and reverse=True keeps equal keys in insertion order. -/
def mostRecentEntry : Registry → Option (String × SessionInfo)
  | [] => none
  | e :: rest =>
    match mostRecentEntry rest with
    | none => some e
    | some b => if sortKey e.2 < sortKey b.2 then some b else some e

/-- Truthiness-and-membership test of line 697: not (not session_id or
session_id not in active_sessions). An empty-string id is falsy in Python. -/
def sidResolves (reg : Registry) : Option String → Bool
  | none => false
  | some s => !s.isEmpty && (lookupReg reg s).isSome

/-- Lines 710-711 and 725-726: refresh last_activity and bump message_count
of the entry with the given key. -/
def updateActivity (reg : Registry) (sid now : String) : Registry :=
  reg.map (fun e =>
    if e.1 == sid then
      (e.1, { e.2 with last_activity := now, message_count := e.2.message_count + 1 })
    else e)

/-- The session dict inserted at lines 716-722 when no session exists. -/
def newSessionInfo (client_host now : String) : SessionInfo :=
  ⟨client_host, now, now, 1, 0⟩

/-- Result of the routing part of post_messages_no_slash: the session the
message is attributed to, the updated registry, and the query string
forwarded to the SSE transport. -/
structure PostResult where
  session_id : String
  registry : Registry
  forwarded_query : String
deriving DecidableEq, Repr

/-- server_sse.post_messages_no_slash, lines 685-745, session-resolution and
query-string part: explicit resolution, most-recently-active fallback,
fresh-session allocation, and the conditional rewrite of the query string
(line 729: only when no session_id parameter was supplied at all). -/
def post_messages_no_slash (params_sid : Option String)
    (now fresh_id client_host : String) (reg : Registry) (orig_query : String) :
    PostResult :=
  let resolved :=
    if sidResolves reg params_sid then
      (params_sid.getD "", updateActivity reg (params_sid.getD "") now)
    else if reg.isEmpty then
      (fresh_id, reg ++ [(fresh_id, newSessionInfo client_host now)])
    else
      match mostRecentEntry reg with
      | some e => (e.1, updateActivity reg e.1 now)
      | none => ("", reg)
  let fq :=
    if params_sid.isSome then orig_query
    else "session_id=" ++ resolved.1
  ⟨resolved.1, resolved.2, fq⟩

end ServerSSE

/- ===== Embedding of src/render_server.py (and the identically framed parts of src/minimal_server.py) ===== -/

namespace RenderServer

open WikidataAPI

/-- render_server.execute_wikidata_sparql, lines 102-116: a direct call to
wikidata_api.execute_sparql with no local validation; the second component
is the list of queries sent to the endpoint. -/
def execute_wikidata_sparql (net : String → SparqlReply) (query : String) :
    SparqlResult × List String :=
  execute_sparql net query

/-- The initial frame of generate, line 169: event endpoint with the
session id embedded as a query parameter. -/
def endpointFrame (sid : String) : String :=
  "event: endpoint\ndata: /messages?session_id=" ++ sid ++ "\n\n"

/-- The frame generate yields for every message dequeued from the write
queue, line 187. -/
def dataFrame (m : String) : String := "data: " ++ m ++ "\n\n"

/-- The string send_periodic_pings enqueues every interval, line 268
(minimal_server line 225 is identical up to the interval). -/
def ping_message (ts : String) : String := ": ping - " ++ ts

/-- The messages generate dequeues before stopping: items up to the first
None close sentinel, lines 183-186. -/
def drainUntilClose : List (Option String) → List String
  | [] => []
  | none :: _ => []
  | some m :: rest => m :: drainUntilClose rest

/-- The full frame sequence of one generate run, lines 167-187: the endpoint
frame first, then one data frame per dequeued write-queue item. -/
def generateFrames (sid : String) (items : List (Option String)) : List String :=
  endpointFrame sid :: (drainUntilClose items).map dataFrame

/-- The ids the /sse endpoint has issued after n connections, with the uuid4
draw of line 153 modelled as an abstract supply indexed by connection count. -/
def issuedIds (gen : Nat → String) (n : Nat) : List String :=
  (List.range n).map gen

/-- asyncio task status as the cleanup code observes it. -/
inductive TaskState where
  | running
  | done
  | cancelled
deriving DecidableEq, Repr

/-- task.cancel(): cancels a running task and is a no-op on a finished or
already-cancelled one. -/
def cancelTask : TaskState → TaskState
  | .running => .cancelled
  | .done => .done
  | .cancelled => .cancelled

/-- The state the finally block of generate manipulates: the
active_connections keys, the ping task and the mcp task, lines 189-196. -/
structure CleanupState where
  registry : List String
  pingTask : TaskState
  mcpTask : TaskState
deriving DecidableEq, Repr

/-- The ways the generate loop can exit: the None sentinel was dequeued, the
connection broke, an exception propagated, or the task was cancelled. -/
inductive ExitReason where
  | closeSentinel
  | connectionBroken
  | streamError
  | cancelled
deriving DecidableEq, Repr

/-- The finally block of generate, lines 189-196: cancel the ping task,
cancel the mcp task if it has not finished, and drop the session from
active_connections. -/
def generate_finally (sid : String) (st : CleanupState) : CleanupState :=
  { registry := st.registry.filter (fun k => !(k == sid))
    pingTask := cancelTask st.pingTask
    mcpTask := if st.mcpTask = .done then st.mcpTask else cancelTask st.mcpTask }

/-- Exit of the generate loop: Python try/finally runs the same cleanup on
every exit path, so the reason does not change the effect. -/
def generate_exit (_ : ExitReason) (sid : String) (st : CleanupState) : CleanupState :=
  generate_finally sid st

/-- Python membership test against active_connections. -/
def lookupConn (reg : List String) (sid : String) : Bool := reg.contains sid

/-- One iteration of the send_periodic_pings loop, lines 263-269: the
while/if guards re-check membership and only then enqueue a ping. -/
def send_periodic_pings_step (reg : List String) (sid ts : String) : Option String :=
  if reg.contains sid then some (ping_message ts) else none

/-- Ghost-tagged item of a session write queue: a protocol response or a
liveness ping. At runtime both are plain strings; the tag records which
code path enqueued the string, so ordering statements can separate them. -/
inductive QItem where
  | resp (s : String)
  | ping (s : String)
deriving DecidableEq, Repr

/-- The per-session state of one render_server session: the two asyncio
queues (lines 157-158) plus the histories of accepted inbound messages,
processed messages and emitted frames. -/
structure Sess where
  readQ : List String
  writeQ : List QItem
  accepted : List String
  processed : List String
  emitted : List QItem
deriving DecidableEq, Repr

/-- The protocol responses among a list of queue items, in order. -/
def respOf (l : List QItem) : List String :=
  l.filterMap (fun i => match i with | .resp s => some s | .ping _ => none)

/-- Session state right after the sse endpoint created the queues. -/
def initSess : Sess := ⟨[], [], [], [], []⟩

/-- Events of one session, parametrized by the response function f of the
protocol runner. accept is messages_endpoint lines 210-227 (enqueue at the
tail of read_queue); ping is send_periodic_pings (enqueue on write_queue);
emit is the generate loop lines 183-187 (dequeue write_queue head, yield).
process: Modelled from the spec: the Protocol Runner (the mcp library run
started at lines 229-247, whose code is not in this repository) dequeues
one inbound message and enqueues exactly one correlated response before
dequeuing the next, per spec section 4.4. -/
inductive SessStep (f : String → String) : Sess → Sess → Prop where
  | accept (s : Sess) (m : String) :
      SessStep f s { s with readQ := s.readQ ++ [m], accepted := s.accepted ++ [m] }
  | process (s : Sess) (m : String) (rest : List String) (h : s.readQ = m :: rest) :
      SessStep f s { s with readQ := rest, writeQ := s.writeQ ++ [.resp (f m)],
                            processed := s.processed ++ [m] }
  | ping (s : Sess) (t : String) :
      SessStep f s { s with writeQ := s.writeQ ++ [.ping t] }
  | emit (s : Sess) (i : QItem) (rest : List QItem) (h : s.writeQ = i :: rest) :
      SessStep f s { s with writeQ := rest, emitted := s.emitted ++ [i] }

/-- States one session can reach from its creation. -/
def Reachable (f : String → String) (s : Sess) : Prop :=
  Relation.ReflTransGen (SessStep f) initSess s

end RenderServer

/- ===== Shared concrete stubs ===== -/

/-- A deterministic endpoint stub that answers every query with an empty
bindings list. -/
def stubNet : String → WikidataAPI.SparqlReply := fun _ => .ok "[]"

/-- A deterministic, stateful metadata backend stub: the counter state
changes between calls but the response does not. -/
def stubMetaBackend : Nat → WikidataAPI.MetaResponse × Nat :=
  fun n =>
    (.success [("Q937", ⟨some "Albert Einstein", some "German-born theoretical physicist"⟩)],
      n + 1)

/- ===== Claim theorems ===== -/

/-- Claim C8: search_entity returns the backend-provided identifier verbatim
when the search succeeds with at least one hit, returns the string
No entity found when the result set is empty or absent, and turns a request
exception into an error string instead of raising. -/
theorem search_entity_outcomes (h : WikidataAPI.SearchHit)
    (hits : List WikidataAPI.SearchHit) (m : String) :
    WikidataAPI.search_entity (.success (some (h :: hits))) = h.id ∧
    WikidataAPI.search_entity (.success (some [])) = "No entity found" ∧
    WikidataAPI.search_entity (.success none) = "No entity found" ∧
    WikidataAPI.search_entity (.requestException m)
      = "Error searching for entity: " ++ m :=
  ⟨rfl, rfl, rfl, rfl⟩

/-- Claim C9: with a deterministic backend, two invocations of
get_entity_metadata on the same entity id give identical records, and the
get_wikidata_metadata tool wrapper therefore gives byte-identical JSON
strings, even when the two calls are sequenced through the backend state. -/
theorem get_metadata_idempotent {σ : Type}
    (backend : σ → WikidataAPI.MetaResponse × σ) (entity_id : String) (s : σ)
    (hdet : ∀ s1 s2 : σ, (backend s1).1 = (backend s2).1) :
    WikidataAPI.get_entity_metadata (backend s).1 entity_id
      = WikidataAPI.get_entity_metadata
          (backend (ServerSSE.get_wikidata_metadata_run backend entity_id s).2).1
          entity_id ∧
    (ServerSSE.get_wikidata_metadata_run backend entity_id s).1
      = (ServerSSE.get_wikidata_metadata_run backend entity_id
          (ServerSSE.get_wikidata_metadata_run backend entity_id s).2).1 := by
  have h1 := hdet s (ServerSSE.get_wikidata_metadata_run backend entity_id s).2
  constructor
  · rw [h1]
  · simp only [ServerSSE.get_wikidata_metadata_run]
    rw [hdet s (backend s).2]

/-- Witness for C9 at a concrete deterministic stub backend. -/
theorem get_metadata_idempotent_witness :
    (ServerSSE.get_wikidata_metadata_run stubMetaBackend "Q937" 0).1
      = (ServerSSE.get_wikidata_metadata_run stubMetaBackend "Q937"
          (ServerSSE.get_wikidata_metadata_run stubMetaBackend "Q937" 0).2).1 :=
  (get_metadata_idempotent stubMetaBackend "Q937" 0 (fun _ _ => rfl)).2

/-- Following the spec wording of claim C7: whether the query text contains
a namespace prefix declaration. SPARQL keywords are case-insensitive, so a
declaration is recognised by the keyword in any letter case; this is the
spec-side notion to be compared with the raw substring guard the code uses. -/
def specContainsNamespaceDecl (q : String) : Bool :=
  strContains (String.mk (q.data.map Char.toUpper)) "PREFIX"

/-- A query whose first token is a genuine (mixed-case) namespace prefix
declaration, spelled neither PREFIX nor prefix. -/
def mixedCaseQuery : String :=
  "Prefix wd: <http://www.wikidata.org/entity/> SELECT ?x"

set_option maxRecDepth 4000 in
/-- Counterexample to claim C7 as stated: this query contains a namespace
prefix declaration, yet execute_sparql does not send it unchanged - the
guard is a raw substring test for the spellings PREFIX and prefix only, so
the defaults are prepended anyway. -/
theorem execute_sparql_decl_counterexample :
    specContainsNamespaceDecl mixedCaseQuery = true ∧
    WikidataAPI.full_query mixedCaseQuery ≠ mixedCaseQuery ∧
    (WikidataAPI.execute_sparql stubNet mixedCaseQuery).2 ≠ [mixedCaseQuery] := by
  refine ⟨by decide, by decide, by decide⟩

set_option maxRecDepth 4000 in
/-- Claim C7 (amended): every query execute_sparql sends to the endpoint is
full_query of the input; the six default declarations (wd, wdt, p, ps,
wikibase, bd) are prepended exactly when the text contains neither the
substring PREFIX nor the substring prefix, and the text is sent unchanged
exactly when it contains one of those two substrings. -/
theorem execute_sparql_default_prefixes (net : String → WikidataAPI.SparqlReply)
    (q : String) :
    (∀ s ∈ (WikidataAPI.execute_sparql net q).2, s = WikidataAPI.full_query q) ∧
    (WikidataAPI.hasPrefixMarker q = false →
      WikidataAPI.full_query q = WikidataAPI.default_prefixes ++ q) ∧
    (WikidataAPI.hasPrefixMarker q = true → WikidataAPI.full_query q = q) ∧
    strContains WikidataAPI.default_prefixes
      "PREFIX wd: <http://www.wikidata.org/entity/>" = true ∧
    strContains WikidataAPI.default_prefixes
      "PREFIX wdt: <http://www.wikidata.org/prop/direct/>" = true ∧
    strContains WikidataAPI.default_prefixes
      "PREFIX p: <http://www.wikidata.org/prop/>" = true ∧
    strContains WikidataAPI.default_prefixes
      "PREFIX ps: <http://www.wikidata.org/prop/statement/>" = true ∧
    strContains WikidataAPI.default_prefixes
      "PREFIX wikibase: <http://wikiba.se/ontology#>" = true ∧
    strContains WikidataAPI.default_prefixes
      "PREFIX bd: <http://www.bigdata.com/rdf#>" = true := by
  refine ⟨?_, ?_, ?_, by decide, by decide, by decide, by decide, by decide, by decide⟩
  · intro s hs
    simp only [WikidataAPI.execute_sparql, WikidataAPI.execute_sparql_with_requests] at hs
    cases hnet : net (WikidataAPI.full_query q) with
    | ok b => rw [hnet] at hs; simpa using hs
    | exn m et tb => rw [hnet] at hs; simpa using hs
  · intro h
    simp [WikidataAPI.full_query, h]
  · intro h
    simp [WikidataAPI.full_query, h]

set_option maxRecDepth 4000 in
/-- Witness for C7 at a concrete marker-free query. -/
theorem execute_sparql_default_prefixes_witness :
    WikidataAPI.full_query "SELECT ?x WHERE ?x ?p ?o"
      = WikidataAPI.default_prefixes ++ "SELECT ?x WHERE ?x ?p ?o" :=
  (execute_sparql_default_prefixes stubNet "SELECT ?x WHERE ?x ?p ?o").2.1 (by decide)

/-- A query containing a single double-quote character, hence an odd count. -/
def oddQuoteQuery : String := "ASK \""

set_option maxRecDepth 4000 in
/-- Counterexample to claim C6 as stated: render_server's
execute_wikidata_sparql performs no quote validation, so a query with an odd
number of double quotes is still sent to the backend endpoint. -/
theorem render_sparql_no_validation_counterexample :
    countChar oddQuoteQuery dquote % 2 = 1 ∧
    (RenderServer.execute_wikidata_sparql stubNet oddQuoteQuery).2 ≠ [] := by
  refine ⟨by decide, by decide⟩

/-- Claim C6 (amended): in the server_sse variant of execute_wikidata_sparql,
a query whose double-quote count or single-quote count is odd produces a
locally built error dictionary and no query is sent to the backend; the
render_server variant has no such validation (see the counterexample). -/
theorem execute_wikidata_sparql_quote_validation
    (net : String → WikidataAPI.SparqlReply) (q : String)
    (h : countChar q dquote % 2 = 1 ∨ countChar q squote % 2 = 1) :
    (∃ m, (ServerSSE.execute_wikidata_sparql net q).1
        = ServerSSE.ToolResult.errorMsg m) ∧
    (ServerSSE.execute_wikidata_sparql net q).2 = [] := by
  by_cases hd : countChar q dquote % 2 = 1
  · have hd' : q.data.count dquote % 2 = 1 := hd
    have hmem : dquote ∈ q.data := List.count_pos_iff.mp (by omega)
    have hc : q.data.contains dquote = true := by
      simpa [List.elem_iff] using hmem
    have hm : (countChar q dquote % 2 == 0) = false := by
      rw [hd]
      rfl
    have hcond : (q.data.contains dquote && !(countChar q dquote % 2 == 0)) = true := by
      rw [hc, hm]
      rfl
    unfold ServerSSE.execute_wikidata_sparql
    rw [if_pos hcond]
    exact ⟨⟨_, rfl⟩, rfl⟩
  · have hs : countChar q squote % 2 = 1 := h.resolve_left hd
    have hs' : q.data.count squote % 2 = 1 := hs
    have hmem : squote ∈ q.data := List.count_pos_iff.mp (by omega)
    have hc : q.data.contains squote = true := by
      simpa [List.elem_iff] using hmem
    have hdm : (countChar q dquote % 2 == 0) = true := by
      have h0 : countChar q dquote % 2 = 0 := by omega
      rw [h0]
      rfl
    have hm : (countChar q squote % 2 == 0) = false := by
      rw [hs]
      rfl
    have hcond1 : (q.data.contains dquote && !(countChar q dquote % 2 == 0)) = false := by
      rw [hdm]
      simp
    have hcond2 : (q.data.contains squote && !(countChar q squote % 2 == 0)) = true := by
      rw [hc, hm]
      rfl
    unfold ServerSSE.execute_wikidata_sparql
    rw [if_neg (by rw [hcond1]; exact Bool.false_ne_true), if_pos hcond2]
    exact ⟨⟨_, rfl⟩, rfl⟩

/-- Witness for C6 at a query with one double quote against the stub
endpoint. -/
theorem execute_wikidata_sparql_quote_validation_witness :
    (∃ m, (ServerSSE.execute_wikidata_sparql stubNet "SELECT \"x").1
        = ServerSSE.ToolResult.errorMsg m) ∧
    (ServerSSE.execute_wikidata_sparql stubNet "SELECT \"x").2 = [] :=
  execute_wikidata_sparql_quote_validation stubNet "SELECT \"x"
    (Or.inl (by decide))

theorem dataFrame_starts_data (m : String) :
    strStarts (RenderServer.dataFrame m) "data: " = true := by
  have base := listIsPre_self_append ("data: ").data (m.data ++ ("\n\n").data)
  simpa [RenderServer.dataFrame, strStarts, String.data_append,
    List.append_assoc] using base

theorem listIsPre_event_on_data (l : List Char) :
    listIsPre ("event:").data (("data: ").data ++ l) = false := by
  show (('e' == 'd') && listIsPre ("vent:").data (("ata: ").data ++ l)) = false
  rw [show (('e' : Char) == 'd') = false from rfl]
  rfl

theorem dataFrame_not_event (m : String) :
    strStarts (RenderServer.dataFrame m) "event:" = false := by
  have base := listIsPre_event_on_data (m.data ++ ("\n\n").data)
  simpa [RenderServer.dataFrame, strStarts, String.data_append,
    List.append_assoc] using base

theorem listIsPre_colon_on_data (l : List Char) :
    listIsPre (":").data (("data: ").data ++ l) = false := by
  show ((':' == 'd') && listIsPre [] (("ata: ").data ++ l)) = false
  rw [show ((':' : Char) == 'd') = false from rfl]
  rfl

theorem endpointFrame_starts_event (sid : String) :
    strStarts (RenderServer.endpointFrame sid) "event:" = true := by
  have base : listIsPre ("event:").data
      ("event: endpoint\ndata: /messages?session_id=").data = true := by decide
  have := listIsPre_append_right ("event:").data
    ("event: endpoint\ndata: /messages?session_id=").data
    (sid.data ++ ("\n\n").data) base
  simpa [RenderServer.endpointFrame, strStarts, String.data_append,
    List.append_assoc] using this

/-- Claim C5: the liveness marker is enqueued as a comment-style string
beginning with a colon, but the generate loop wraps every dequeued item in a
data frame, so the marker reaches the client as a data frame whose first
bytes are data-colon-space, not as a comment line beginning with a colon.
This evaluates the code at the failing input; the spec requires the
opposite framing. -/
theorem ping_delivered_as_data_frame (sid ts : String) :
    RenderServer.generateFrames sid [some (RenderServer.ping_message ts), none]
      = [RenderServer.endpointFrame sid,
         RenderServer.dataFrame (RenderServer.ping_message ts)] ∧
    strStarts (RenderServer.ping_message ts) ":" = true ∧
    strStarts (RenderServer.dataFrame (RenderServer.ping_message ts))
      "data: : ping - " = true ∧
    strStarts (RenderServer.dataFrame (RenderServer.ping_message ts)) ":" = false := by
  refine ⟨rfl, ?_, ?_, ?_⟩
  · have base : listIsPre (":").data (": ping - ").data = true := by decide
    have := listIsPre_append_right (":").data (": ping - ").data ts.data base
    simpa [RenderServer.ping_message, strStarts, String.data_append] using this
  · have base : listIsPre ("data: : ping - ").data
        (("data: ").data ++ (": ping - ").data) = true := by decide
    have := listIsPre_append_right ("data: : ping - ").data
      (("data: ").data ++ (": ping - ").data)
      (ts.data ++ ("\n\n").data) base
    simpa [RenderServer.dataFrame, RenderServer.ping_message, strStarts,
      String.data_append, List.append_assoc] using this
  · have := listIsPre_colon_on_data
      ((": ping - ").data ++ (ts.data ++ ("\n\n").data))
    simpa [RenderServer.dataFrame, RenderServer.ping_message, strStarts,
      String.data_append, List.append_assoc] using this

/-- Claim C3: a fresh push stream emits the endpoint frame first, carrying
the session id as a query parameter; every later frame is a data frame, so
exactly one frame of the stream carries the event field; and with the uuid
supply injective (the no-collision assumption of the id space), the id of
connection n differs from every previously issued id. -/
theorem endpoint_frame_first_and_fresh (gen : Nat → String) (n : Nat)
    (items : List (Option String)) (hg : Function.Injective gen) :
    (RenderServer.generateFrames (gen n) items).head?
      = some ("event: endpoint\ndata: /messages?session_id=" ++ gen n ++ "\n\n") ∧
    (∀ fr ∈ (RenderServer.generateFrames (gen n) items).tail,
        strStarts fr "data: " = true ∧ strStarts fr "event:" = false) ∧
    List.countP (fun fr => strStarts fr "event:")
      (RenderServer.generateFrames (gen n) items) = 1 ∧
    gen n ∉ RenderServer.issuedIds gen n := by
  refine ⟨rfl, ?_, ?_, ?_⟩
  · intro fr hfr
    simp only [RenderServer.generateFrames, List.tail_cons, List.mem_map] at hfr
    obtain ⟨m, _, rfl⟩ := hfr
    exact ⟨dataFrame_starts_data m, dataFrame_not_event m⟩
  · simp only [RenderServer.generateFrames, List.countP_cons]
    rw [endpointFrame_starts_event]
    have hz : List.countP (fun fr => strStarts fr "event:")
        ((RenderServer.drainUntilClose items).map RenderServer.dataFrame) = 0 := by
      refine List.countP_eq_zero.mpr ?_
      intro fr hfr
      simp only [List.mem_map] at hfr
      obtain ⟨m, _, rfl⟩ := hfr
      simp [dataFrame_not_event m]
    rw [hz]
    rfl
  · intro hmem
    simp only [RenderServer.issuedIds, List.mem_map, List.mem_range] at hmem
    obtain ⟨i, hi, hgi⟩ := hmem
    exact absurd (hg hgi) (Nat.ne_of_lt hi)

/-- The injective id supply used by the C3 witness. -/
def genReplicate (k : Nat) : String := String.mk (List.replicate k 'x')

theorem genReplicate_injective : Function.Injective genReplicate := by
  intro a b h
  have := congrArg (fun s => s.data.length) h
  simpa [genReplicate] using this

/-- Witness for C3 at a concrete connection count and stream content. -/
theorem endpoint_frame_first_and_fresh_witness :
    (RenderServer.generateFrames (genReplicate 2) [some "hello", none]).head?
      = some ("event: endpoint\ndata: /messages?session_id="
          ++ genReplicate 2 ++ "\n\n") ∧
    genReplicate 2 ∉ RenderServer.issuedIds genReplicate 2 :=
  ⟨(endpoint_frame_first_and_fresh genReplicate 2 [some "hello", none]
      genReplicate_injective).1,
   (endpoint_frame_first_and_fresh genReplicate 2 [some "hello", none]
      genReplicate_injective).2.2.2⟩

theorem contains_filter_self (l : List String) (sid : String) :
    (l.filter (fun k => !(k == sid))).contains sid = false := by
  rw [Bool.eq_false_iff]
  intro hc
  have hmem : sid ∈ l.filter (fun k => !(k == sid)) := List.elem_iff.mp hc
  have h2 := (List.mem_filter.mp hmem).2
  simp at h2

theorem contains_filter_other (l : List String) (sid k : String) (hk : k ≠ sid) :
    (l.filter (fun x => !(x == sid))).contains k = l.contains k := by
  have hiff : (k ∈ l.filter (fun x => !(x == sid))) ↔ k ∈ l := by
    rw [List.mem_filter]
    exact ⟨fun h => h.1, fun h => ⟨h, by simp [hk]⟩⟩
  by_cases hm : k ∈ l
  · rw [show l.contains k = true from List.elem_iff.mpr hm,
      show (l.filter (fun x => !(x == sid))).contains k = true from
        List.elem_iff.mpr (hiff.mpr hm)]
  · rw [show l.contains k = false from by
        rw [Bool.eq_false_iff]; exact fun hc => hm (List.elem_iff.mp hc),
      show (l.filter (fun x => !(x == sid))).contains k = false from by
        rw [Bool.eq_false_iff]; exact fun hc => hm (hiff.mp (List.elem_iff.mp hc))]

/-- Claim C4: whatever the exit reason of the push-stream generator for
session sid, the finally-block cleanup removes sid from the registry (so a
lookup afterwards fails), stops the liveness keeper (its next loop
iteration emits nothing and its task is cancelled), leaves the protocol
runner not running (cancelled unless it had already finished), preserves
every other session, and is idempotent, so the removal takes effect exactly
once. -/
theorem generate_cleanup (r : RenderServer.ExitReason) (sid : String)
    (st : RenderServer.CleanupState)
    (hping : st.pingTask = RenderServer.TaskState.running) :
    RenderServer.lookupConn (RenderServer.generate_exit r sid st).registry sid
      = false ∧
    (∀ ts, RenderServer.send_periodic_pings_step
        (RenderServer.generate_exit r sid st).registry sid ts = none) ∧
    (RenderServer.generate_exit r sid st).pingTask
      = RenderServer.TaskState.cancelled ∧
    (RenderServer.generate_exit r sid st).mcpTask
      ≠ RenderServer.TaskState.running ∧
    (∀ k, k ≠ sid →
        ((RenderServer.generate_exit r sid st).registry.contains k
          = st.registry.contains k)) ∧
    RenderServer.generate_exit r sid (RenderServer.generate_exit r sid st)
      = RenderServer.generate_exit r sid st := by
  have hcontains := contains_filter_self st.registry sid
  refine ⟨?_, ?_, ?_, ?_, ?_, ?_⟩
  · exact hcontains
  · intro ts
    simp [RenderServer.generate_exit, RenderServer.generate_finally,
      RenderServer.send_periodic_pings_step, hcontains]
  · simp [RenderServer.generate_exit, RenderServer.generate_finally, hping,
      RenderServer.cancelTask]
  · simp only [RenderServer.generate_exit, RenderServer.generate_finally]
    cases st.mcpTask <;> simp [RenderServer.cancelTask]
  · intro k hk
    simpa [RenderServer.generate_exit, RenderServer.generate_finally]
      using contains_filter_other st.registry sid k hk
  · cases st with
    | mk reg ping mcp =>
      simp only [RenderServer.generate_exit, RenderServer.generate_finally,
        RenderServer.CleanupState.mk.injEq]
      refine ⟨?_, ?_, ?_⟩
      · simp [List.filter_filter]
      · cases ping <;> rfl
      · cases mcp <;> rfl

/-- Witness for C4 at a concrete state with one other live session. -/
theorem generate_cleanup_witness :
    RenderServer.lookupConn
      (RenderServer.generate_exit RenderServer.ExitReason.streamError "s"
        ⟨["a", "s"], RenderServer.TaskState.running,
          RenderServer.TaskState.running⟩).registry "s" = false ∧
    (RenderServer.generate_exit RenderServer.ExitReason.streamError "s"
        ⟨["a", "s"], RenderServer.TaskState.running,
          RenderServer.TaskState.running⟩).pingTask
      = RenderServer.TaskState.cancelled :=
  ⟨(generate_cleanup RenderServer.ExitReason.streamError "s"
      ⟨["a", "s"], RenderServer.TaskState.running,
        RenderServer.TaskState.running⟩ rfl).1,
   (generate_cleanup RenderServer.ExitReason.streamError "s"
      ⟨["a", "s"], RenderServer.TaskState.running,
        RenderServer.TaskState.running⟩ rfl).2.2.1⟩

theorem mostRecentEntry_mem (reg : ServerSSE.Registry)
    (e : String × ServerSSE.SessionInfo)
    (h : ServerSSE.mostRecentEntry reg = some e) : e ∈ reg := by
  induction reg generalizing e with
  | nil => cases h
  | cons x xs ih =>
    simp only [ServerSSE.mostRecentEntry] at h
    cases hx : ServerSSE.mostRecentEntry xs with
    | none =>
      simp only [hx] at h
      cases h
      exact List.mem_cons_self x xs
    | some b =>
      simp only [hx] at h
      by_cases hlt : ServerSSE.sortKey x.2 < ServerSSE.sortKey b.2
      · rw [if_pos hlt] at h
        cases h
        exact List.mem_cons_of_mem x (ih _ hx)
      · rw [if_neg hlt] at h
        cases h
        exact List.mem_cons_self x xs

theorem mostRecentEntry_some (reg : ServerSSE.Registry) (h : reg ≠ []) :
    ∃ e, ServerSSE.mostRecentEntry reg = some e := by
  cases reg with
  | nil => exact absurd rfl h
  | cons x xs =>
    simp only [ServerSSE.mostRecentEntry]
    cases hx : ServerSSE.mostRecentEntry xs with
    | none => exact ⟨x, rfl⟩
    | some b =>
      by_cases hlt : ServerSSE.sortKey x.2 < ServerSSE.sortKey b.2
      · exact ⟨b, if_pos hlt⟩
      · exact ⟨x, if_neg hlt⟩

theorem mostRecentEntry_eq_none (reg : ServerSSE.Registry)
    (h : ServerSSE.mostRecentEntry reg = none) : reg = [] := by
  cases reg with
  | nil => rfl
  | cons x xs =>
    exfalso
    obtain ⟨e, he⟩ := mostRecentEntry_some (x :: xs) (by simp)
    rw [he] at h
    cases h

theorem mostRecentEntry_max (reg : ServerSSE.Registry)
    (e : String × ServerSSE.SessionInfo)
    (h : ServerSSE.mostRecentEntry reg = some e) :
    ∀ x ∈ reg, ServerSSE.sortKey x.2 ≤ ServerSSE.sortKey e.2 := by
  induction reg generalizing e with
  | nil => cases h
  | cons a xs ih =>
    intro x hx
    simp only [ServerSSE.mostRecentEntry] at h
    cases hms : ServerSSE.mostRecentEntry xs with
    | none =>
      have hxs : xs = [] := mostRecentEntry_eq_none xs hms
      simp only [hms] at h
      cases h
      subst hxs
      rcases List.mem_cons.mp hx with hxa | hxx
      · subst hxa; exact le_refl _
      · cases hxx
    | some b =>
      simp only [hms] at h
      have hbmax := ih b hms
      by_cases hlt : ServerSSE.sortKey a.2 < ServerSSE.sortKey b.2
      · rw [if_pos hlt] at h
        cases h
        rcases List.mem_cons.mp hx with hxa | hxx
        · subst hxa; exact le_of_lt hlt
        · exact hbmax x hxx
      · rw [if_neg hlt] at h
        cases h
        rcases List.mem_cons.mp hx with hxa | hxx
        · subst hxa; exact le_refl _
        · exact le_trans (hbmax x hxx) (not_lt.mp hlt)

theorem lookupReg_updateActivity (reg : ServerSSE.Registry) (sid now : String) :
    ServerSSE.lookupReg (ServerSSE.updateActivity reg sid now) sid
      = (ServerSSE.lookupReg reg sid).map
          (fun i => { i with last_activity := now,
                             message_count := i.message_count + 1 }) := by
  induction reg with
  | nil => rfl
  | cons e rest ih =>
    by_cases h : e.1 = sid
    · have hb : (e.1 == sid) = true := beq_iff_eq.mpr h
      simp only [ServerSSE.updateActivity, List.map_cons, ServerSSE.lookupReg]
      rw [if_pos hb]
      simp only [List.find?, hb]
      rfl
    · have hb : (e.1 == sid) = false := beq_eq_false_iff_ne.mpr h
      have hb2 : ¬((e.1 == sid) = true) := by
        rw [hb]; exact Bool.false_ne_true
      simp only [ServerSSE.updateActivity, List.map_cons, ServerSSE.lookupReg]
      rw [if_neg hb2]
      simp only [List.find?, hb]
      simpa [ServerSSE.updateActivity, ServerSSE.lookupReg] using ih

theorem updateActivity_length (reg : ServerSSE.Registry) (sid now : String) :
    (ServerSSE.updateActivity reg sid now).length = reg.length :=
  List.length_map reg _

/-- Response of render_server.messages_endpoint: the 400 rejection or the
200 acknowledgement after enqueueing the body. -/
inductive RenderMessagesResponse where
  | badRequest (content : String)
  | ok
deriving DecidableEq, Repr

/-- The active_connections dict of render_server.py restricted to what
messages_endpoint touches: each session id with its read queue. -/
abbrev RenderConnMap := List (String × List String)

/-- render_server.messages_endpoint, lines 210-227 (minimal_server lines
174-189 are identical): a missing, empty or unresolvable session id yields
Response(400, Invalid session ID) and leaves the registry untouched;
otherwise the body is enqueued at the tail of that session's read queue and
200 is returned. -/
def render_messages_endpoint (params_sid : Option String) (body : String)
    (conns : RenderConnMap) : RenderMessagesResponse × RenderConnMap :=
  match params_sid with
  | none => (.badRequest "Invalid session ID", conns)
  | some sid =>
    if sid.isEmpty then (.badRequest "Invalid session ID", conns)
    else
      match WikidataAPI.assocLookup conns sid with
      | none => (.badRequest "Invalid session ID", conns)
      | some _ =>
          (.ok, conns.map (fun e => if e.1 == sid then (e.1, e.2 ++ [body]) else e))

/-- Claim C2: the POST /messages handler uses the supplied session id when it
resolves (refreshing its last-activity timestamp); when the id is missing or
unresolvable and sessions exist, it routes to a registered session whose
last-activity key is maximal (the most-recently-active one) without creating
a session; and when the registry is empty it allocates a brand-new session
carrying the message (message_count 1) instead of failing. -/
theorem post_messages_routing (params_sid : Option String)
    (now fresh_id client_host orig_query : String) (reg : ServerSSE.Registry) :
    (∀ sd info, params_sid = some sd → sd.isEmpty = false →
        ServerSSE.lookupReg reg sd = some info →
        (ServerSSE.post_messages_no_slash params_sid now fresh_id client_host
            reg orig_query).session_id = sd ∧
        ServerSSE.lookupReg (ServerSSE.post_messages_no_slash params_sid now
            fresh_id client_host reg orig_query).registry sd
          = some { info with last_activity := now,
                             message_count := info.message_count + 1 }) ∧
    (ServerSSE.sidResolves reg params_sid = false → reg ≠ [] →
        ∃ e, e ∈ reg ∧
          (ServerSSE.post_messages_no_slash params_sid now fresh_id client_host
              reg orig_query).session_id = e.1 ∧
          (∀ x ∈ reg, ServerSSE.sortKey x.2 ≤ ServerSSE.sortKey e.2) ∧
          (ServerSSE.post_messages_no_slash params_sid now fresh_id client_host
              reg orig_query).registry.length = reg.length) ∧
    (reg = [] →
        (ServerSSE.post_messages_no_slash params_sid now fresh_id client_host
            reg orig_query).session_id = fresh_id ∧
        ServerSSE.lookupReg (ServerSSE.post_messages_no_slash params_sid now
            fresh_id client_host reg orig_query).registry fresh_id
          = some (ServerSSE.newSessionInfo client_host now)) := by
  refine ⟨?_, ?_, ?_⟩
  · rintro sd info rfl hempty hlook
    have hres : ServerSSE.sidResolves reg (some sd) = true := by
      simp [ServerSSE.sidResolves, hempty, hlook]
    constructor
    · simp [ServerSSE.post_messages_no_slash, hres]
    · simp [ServerSSE.post_messages_no_slash, hres, lookupReg_updateActivity,
        hlook]
  · intro hres hne
    obtain ⟨e, he⟩ := mostRecentEntry_some reg hne
    have hnemp : reg.isEmpty = false := by
      cases reg with
      | nil => exact absurd rfl hne
      | cons x xs => rfl
    refine ⟨e, mostRecentEntry_mem reg e he, ?_, mostRecentEntry_max reg e he, ?_⟩
    · simp [ServerSSE.post_messages_no_slash, hres, hnemp, he]
    · simp [ServerSSE.post_messages_no_slash, hres, hnemp, he,
        updateActivity_length]
  · rintro rfl
    have hres : ServerSSE.sidResolves [] params_sid = false := by
      cases params_sid <;> simp [ServerSSE.sidResolves, ServerSSE.lookupReg]
    constructor
    · simp [ServerSSE.post_messages_no_slash, hres]
    · simp [ServerSSE.post_messages_no_slash, hres, ServerSSE.lookupReg,
        List.find?]

/-- Registry with two live sessions used by the C2 witness. -/
def regExample : ServerSSE.Registry :=
  [("s1", ⟨"h1", "2025-01-01T00:00:00", "2025-01-01T00:05:00", 3, 1⟩),
   ("s2", ⟨"h2", "2025-01-01T00:01:00", "2025-01-01T00:09:00", 1, 1⟩)]

/-- Witness for C2: a POST without a session id, with two sessions live, is
routed to a registered session with maximal last-activity key and creates
none. -/
theorem post_messages_routing_witness :
    ∃ e, e ∈ regExample ∧
      (ServerSSE.post_messages_no_slash none "2025-01-01T00:10:00" "fresh"
          "h3" regExample "body=1").session_id = e.1 ∧
      (∀ x ∈ regExample, ServerSSE.sortKey x.2 ≤ ServerSSE.sortKey e.2) ∧
      (ServerSSE.post_messages_no_slash none "2025-01-01T00:10:00" "fresh"
          "h3" regExample "body=1").registry.length = regExample.length :=
  (post_messages_routing none "2025-01-01T00:10:00" "fresh" "h3" "body=1"
      regExample).2.1 (by decide) (by decide)

/-- The single live connection used by the C2 counterexample. -/
def connsExample : RenderConnMap := [("live", [])]

/-- Counterexample to claim C2 as stated: the messages_endpoint handlers of
render_server and minimal_server, both cited by the claim, answer a POST
with an unresolvable session id with the 400 rejection even though another
session is live - nothing is routed - and answer a POST with no session at
all with the same rejection instead of allocating a fresh session: the POST
fails. -/
theorem render_messages_endpoint_rejects_counterexample :
    (render_messages_endpoint (some "ghost") "m1" connsExample).1
      = RenderMessagesResponse.badRequest "Invalid session ID" ∧
    (render_messages_endpoint (some "ghost") "m1" connsExample).2
      = connsExample ∧
    (render_messages_endpoint (some "ghost") "m1" []).1
      = RenderMessagesResponse.badRequest "Invalid session ID" ∧
    (render_messages_endpoint (some "ghost") "m1" []).2 = [] ∧
    (render_messages_endpoint none "m1" []).1
      = RenderMessagesResponse.badRequest "Invalid session ID" := by
  refine ⟨by decide, by decide, by decide, by decide, by decide⟩

/-- Claim C10: the query string forwarded to the SSE transport is rewritten
to carry the resolved session id only when the POST carried no session_id
parameter at all; whenever a session_id parameter was supplied - resolvable
or not - the original query string is forwarded unchanged. -/
theorem post_messages_query_rewrite (params_sid : Option String)
    (now fresh_id client_host orig_query : String) (reg : ServerSSE.Registry) :
    (∀ sd, params_sid = some sd →
        (ServerSSE.post_messages_no_slash params_sid now fresh_id client_host
            reg orig_query).forwarded_query = orig_query) ∧
    (params_sid = none →
        (ServerSSE.post_messages_no_slash params_sid now fresh_id client_host
            reg orig_query).forwarded_query
          = "session_id=" ++ (ServerSSE.post_messages_no_slash params_sid now
              fresh_id client_host reg orig_query).session_id) := by
  constructor
  · rintro sd rfl
    simp [ServerSSE.post_messages_no_slash]
  · rintro rfl
    simp [ServerSSE.post_messages_no_slash]

/-- Registry with one live session used by the C10 witness. -/
def regExample2 : ServerSSE.Registry :=
  [("live", ⟨"h", "2025-02-02T08:00:00", "2025-02-02T08:30:00", 2, 1⟩)]

/-- Witness for C10: a POST carrying an unresolvable session id ghost is
remapped by the fallback, yet its query string is forwarded untouched. -/
theorem post_messages_query_rewrite_witness :
    (ServerSSE.post_messages_no_slash (some "ghost") "2025-02-02T09:00:00"
        "f9" "h9" regExample2 "session_id=ghost").forwarded_query
      = "session_id=ghost" :=
  (post_messages_query_rewrite (some "ghost") "2025-02-02T09:00:00" "f9" "h9"
      "session_id=ghost" regExample2).1 "ghost" rfl

theorem respOf_append (a b : List RenderServer.QItem) :
    RenderServer.respOf (a ++ b)
      = RenderServer.respOf a ++ RenderServer.respOf b :=
  List.filterMap_append a b _

theorem sess_invariant_step (f : String → String) (a b : RenderServer.Sess)
    (hstep : RenderServer.SessStep f a b)
    (ih1 : a.accepted = a.processed ++ a.readQ)
    (ih2 : RenderServer.respOf a.emitted ++ RenderServer.respOf a.writeQ
      = List.map f a.processed) :
    b.accepted = b.processed ++ b.readQ ∧
    RenderServer.respOf b.emitted ++ RenderServer.respOf b.writeQ
      = List.map f b.processed := by
  cases hstep with
  | accept m =>
    dsimp only
    exact ⟨by rw [ih1, List.append_assoc], ih2⟩
  | process m rest hr =>
    dsimp only
    constructor
    · rw [ih1, hr, List.append_cons]
    · rw [respOf_append, ← List.append_assoc, ih2, List.map_append]
      rfl
  | ping t =>
    dsimp only
    refine ⟨ih1, ?_⟩
    rw [respOf_append, ← List.append_assoc, ih2]
    exact List.append_nil _
  | emit i rest hw =>
    dsimp only
    refine ⟨ih1, ?_⟩
    have hfold : RenderServer.respOf (a.emitted ++ [i]) ++ RenderServer.respOf rest
        = RenderServer.respOf a.emitted ++ RenderServer.respOf (i :: rest) := by
      rw [respOf_append, List.append_assoc, ← respOf_append]
      rfl
    rw [hfold, ← hw, ih2]

theorem sess_invariant (f : String → String) (s : RenderServer.Sess)
    (h : RenderServer.Reachable f s) :
    s.accepted = s.processed ++ s.readQ ∧
    RenderServer.respOf s.emitted ++ RenderServer.respOf s.writeQ
      = List.map f s.processed := by
  induction h with
  | refl => exact ⟨rfl, rfl⟩
  | tail hsteps hstep ih => exact sess_invariant_step f _ _ hstep ih.1 ih.2

/-- Claim C1: in every reachable state of a session, the inbound queue holds
exactly the accepted messages not yet processed, in acceptance order, and
the protocol responses emitted on the outbound stream are a prefix of the
response sequence of the accepted messages in acceptance order - the FIFO
invariant. The sequential runner processes one message at a time, so no two
in-flight calls interleave their responses. -/
theorem session_fifo_order (f : String → String) (s : RenderServer.Sess)
    (h : RenderServer.Reachable f s) :
    s.accepted = s.processed ++ s.readQ ∧
    RenderServer.respOf s.emitted <+: List.map f s.accepted := by
  obtain ⟨h1, h2⟩ := sess_invariant f s h
  refine ⟨h1, RenderServer.respOf s.writeQ ++ List.map f s.readQ, ?_⟩
  rw [h1, List.map_append, ← h2, List.append_assoc]

/-- The identity response function used by the C1 witness. -/
def fEcho : String → String := fun m => m

/-- The session state the C1 witness drives the step relation to: one
message accepted, processed and its response emitted. -/
def sessExample : RenderServer.Sess :=
  ⟨[], [], ["hi"], ["hi"], [RenderServer.QItem.resp "hi"]⟩

/-- Witness for C1: a concrete three-step run (accept, process, emit) whose
emitted responses are a prefix of the accepted-message responses. -/
theorem session_fifo_order_witness :
    RenderServer.respOf sessExample.emitted
      <+: List.map fEcho sessExample.accepted := by
  have t1 : RenderServer.Reachable fEcho ⟨["hi"], [], ["hi"], [], []⟩ :=
    Relation.ReflTransGen.tail Relation.ReflTransGen.refl
      (RenderServer.SessStep.accept RenderServer.initSess "hi")
  have t2 : RenderServer.Reachable fEcho
      ⟨[], [RenderServer.QItem.resp "hi"], ["hi"], ["hi"], []⟩ :=
    Relation.ReflTransGen.tail t1
      (RenderServer.SessStep.process _ "hi" [] rfl)
  have t3 : RenderServer.Reachable fEcho sessExample :=
    Relation.ReflTransGen.tail t2
      (RenderServer.SessStep.emit _ (RenderServer.QItem.resp "hi") [] rfl)
  exact (session_fifo_order fEcho sessExample t3).2
